import Mathlib

set_option maxRecDepth 16384

/-!
Verification of the printermonitor-pro telemetry core.

This file embeds, as executable Lean definitions, the parts of the
repository that the verified claims are about:

  * `calculate_toner_percentage` (src/proxy/src/utils/snmp.py) — the
    supply decoder turning raw current/max strings into a percentage or
    a qualitative status;
  * `get_printer_metrics_async` and `monitor_printer`
    (src/proxy/src/monitoring/collector.py) — the per-device collector
    that assembles one metrics record per poll;
  * `LocalStorage.save_metrics` / `LocalStorage.get_or_create_printer`
    (src/proxy/src/storage/local.py) — the SQLite-backed local store,
    modelled as a pure state transformer on an explicit database value;
  * `CloudStorage.save_metrics` and its retry loop `_make_request`
    (src/proxy/src/storage/cloud.py) — the remote store with fallback
    buffering, with the network modelled as a function from attempt
    number to outcome.

Conventions of the embedding: Python `None` becomes `Option.none`;
Python truthiness of an optional string (`if value:`) is `otruthy`;
Python `int(...)` string parsing is `pyParseInt` (whitespace stripping,
optional sign, digits with single underscores between digits); wall
clock reads (`datetime.now()`) become explicit `Nat` parameters, one
per clock read site.
-/

/-- Whitespace characters stripped by Python `int(str)`. -/
def isPyWS (c : Char) : Bool :=
  c = ' ' || c = '\t' || c = '\n' || c = '\x0d' || c = '\x0b' || c = '\x0c'

/-- Strip leading and trailing whitespace, as Python `int` does before
parsing. -/
def stripWS (l : List Char) : List Char :=
  ((l.dropWhile isPyWS).reverse.dropWhile isPyWS).reverse

/-- No two adjacent underscores (part of Python numeric-literal
grammar: an underscore must sit between two digits). -/
def noDoubleUnderscore : List Char → Bool
  | [] => true
  | [_] => true
  | a :: b :: rest => !(a = '_' && b = '_') && noDoubleUnderscore (b :: rest)

/-- Validity of a digit run for Python `int`: nonempty, first and last
characters are digits, every character is a digit or an underscore, and
no underscore is doubled.  Together these force each underscore to sit
between two digits. -/
def pyDigitsOK (l : List Char) : Bool :=
  (match l with
   | [] => false
   | c :: _ => c.isDigit) &&
  (match l.getLast? with
   | some c => c.isDigit
   | none => false) &&
  l.all (fun c => c.isDigit || c = '_') &&
  noDoubleUnderscore l

/-- Numeric value of a digit run, ignoring underscores. -/
def digitsVal (l : List Char) : Nat :=
  (l.filter Char.isDigit).foldl (fun acc c => acc * 10 + (c.toNat - 48)) 0

/-- Python `int(s)` on a string: strip whitespace, optional sign,
then a digit run; `none` models a raised `ValueError`. -/
def pyParseInt (s : String) : Option Int :=
  let t := stripWS s.toList
  match t with
  | '-' :: rest => if pyDigitsOK rest then some (-(digitsVal rest : Int)) else none
  | '+' :: rest => if pyDigitsOK rest then some ((digitsVal rest : Int)) else none
  | _ => if pyDigitsOK t then some ((digitsVal t : Int)) else none

/-- Python `str.lower()` (ASCII case folding, which is all the
keyword matching of the collector needs). -/
def py_lower (s : String) : String :=
  ⟨s.data.map Char.toLower⟩

/-- Containment of `nd` as a contiguous run inside the haystack (Python
substring membership test on strings). -/
def containsSub (nd : List Char) : List Char → Bool
  | [] => nd.isEmpty
  | c :: rest => nd.isPrefixOf (c :: rest) || containsSub nd rest

/-- Python substring test `nd in hay`. -/
def strContains (hay nd : String) : Bool :=
  containsSub nd.toList hay.toList

/-- Python truthiness of an optional string: `None` and `""` are falsy. -/
def otruthy (o : Option String) : Bool :=
  match o with
  | some s => !s.isEmpty
  | none => false

/-- Keep an optional string only when truthy — models
`if value: supply[key] = value` in `get_supply_info`. -/
def keepTruthy (o : Option String) : Option String :=
  match o with
  | some s => if s.isEmpty then none else some s
  | none => none

/-!
IEEE-754 binary64 model.  The percentage branch of the decoder evaluates
`int((current_val / max_val) * 100)` in Python floats, i.e. binary64
with round to nearest, ties to even.  The following definitions model
that arithmetic bit-exactly over the natural numbers: a positive double
is a significand times a power of two, division and the multiplication
by 100 each round the exact rational result to the binary64 grid
(normal numbers use the grid `2 ^ (e - 52)` for `e = ⌊log2 value⌋ ≥
-1022`, subnormals the grid `2 ^ (-1074)`), and a rounded value
reaching `2 ^ 1024` leaves float range.  The model was cross-checked
value-for-value against CPython on several hundred inputs; the examples
below pin the divergences from exact rational arithmetic that the
source inherits from floats, such as `int((29/100)*100) = 28`.
-/

/-- Fuel-driven base-2 logarithm (kernel-reducible, unlike the
well-founded `Nat.log2`); `natLog2_eq` below identifies the two. -/
def log2fuel : Nat → Nat → Nat
  | 0, _ => 0
  | fuel + 1, n => if 2 ≤ n then log2fuel fuel (n / 2) + 1 else 0

/-- Base-2 integer logarithm: `⌊log2 n⌋` for `n ≥ 1`. -/
def natLog2 (n : Nat) : Nat := log2fuel n n

/-- Round the nonnegative rational `n / d` to the nearest integer, ties
to even — the rounding step shared by every binary64 operation modelled
here. -/
def roundNE (n d : Nat) : Nat :=
  if 2 * (n % d) < d then n / d
  else if d < 2 * (n % d) then n / d + 1
  else if (n / d) % 2 = 0 then n / d else n / d + 1

/-- Decides `2 ^ k ≤ a / b` by cross-multiplication (one of the two
exponents is always zero). -/
def ratGePow2 (a b : Nat) (k : Int) : Bool :=
  decide (b * 2 ^ k.toNat ≤ a * 2 ^ (-k).toNat)

/-- Floor of `log2 (a / b)` for `a, b ≥ 1`: the true value is `la - lb`
or `la - lb - 1` where `la, lb` are the integer logarithms of the
parts, and one comparison picks it. -/
def floorLog2 (a b : Nat) : Int :=
  if ratGePow2 a b ((natLog2 a : Int) - (natLog2 b : Int)) then
    (natLog2 a : Int) - (natLog2 b : Int)
  else (natLog2 a : Int) - (natLog2 b : Int) - 1

/-- Exponent of the binary64 grid that `a / b` rounds on: `e - 52` for
normal magnitudes, `-1074` in the subnormal range. -/
def binShift (a b : Nat) : Int :=
  if -1022 ≤ floorLog2 a b then floorLog2 a b - 52 else -1074

/-- Nearest-even integer `s` with `s * 2 ^ shift` closest to `a / b`. -/
def roundAt (a b : Nat) (shift : Int) : Nat :=
  roundNE (a * 2 ^ (-shift).toNat) (b * 2 ^ shift.toNat)

/-- Round the positive rational `a / b` to binary64 (round to nearest,
ties to even) as significand and exponent; `none` when the rounded
value reaches `2 ^ 1024`, i.e. overflows. -/
def roundPosDouble (a b : Nat) : Option (Nat × Int) :=
  if roundAt a b (binShift a b) < 2 ^ ((1024 : Int) - binShift a b).toNat then
    some (roundAt a b (binShift a b), binShift a b)
  else none

/-- Python float true division of two nonnegative integers: correctly
rounded binary64; `none` when CPython raises `OverflowError`. -/
def pyFloatDiv (a b : Nat) : Option (Nat × Int) :=
  if a = 0 then some (0, 0) else roundPosDouble a b

/-- The exact value `s * 2 ^ p` as a numerator/denominator pair. -/
def dyadicFrac (s : Nat) (p : Int) : Nat × Nat :=
  (s * 2 ^ p.toNat, 2 ^ (-p).toNat)

/-- Floor of the nonnegative double `s * 2 ^ p` — the truncation
performed by Python `int()` on a nonnegative float. -/
def dyadicFloor (s : Nat) (p : Int) : Nat :=
  s * 2 ^ p.toNat / 2 ^ (-p).toNat

/-- The percentage pipeline of the source, bit-exact binary64:
`int((c / m) * 100)` — the division correctly rounded, the
multiplication by the exactly representable 100 correctly rounded, then
truncation.  `none` models the computation leaving float range, where
CPython raises `OverflowError` (directly from the division, or from
`int()` applied to the infinite product). -/
def floatPct (c m : Nat) : Option Nat :=
  match pyFloatDiv c m with
  | none => none
  | some (s1, p1) =>
    match pyFloatDiv (dyadicFrac (s1 * 100) p1).1 (dyadicFrac (s1 * 100) p1).2 with
    | none => none
    | some (s2, p2) => some (dyadicFloor s2 p2)

/-- The supply decoder `calculate_toner_percentage(current, max_capacity)`
from src/proxy/src/utils/snmp.py.  Parse failure on either argument is
the `ValueError` branch returning `(None, "Error")`.  The percentage is
`int((current_val / max_val) * 100)` in binary64, modelled bit-exactly
by `floatPct`.  When that computation leaves float range the source
raises an uncaught `OverflowError` — the `except` clause catches only
`ValueError` and `ZeroDivisionError` — which is reachable only with
inputs of more than three hundred digits; the model, which must stay
total, tags that exit with the distinguished status "OverflowError" so
that no genuine return path of the source is misrepresented. -/
def calculate_toner_percentage (current max_capacity : String) :
    Option Int × Option String :=
  match pyParseInt current, pyParseInt max_capacity with
  | some current_val, some max_val =>
    if current_val = -3 then (none, some "OK")
    else if current_val = -2 then (none, some "Unknown")
    else if current_val < 0 then (none, some ("Status: " ++ toString current_val))
    else if max_val > 0 ∧ max_val ≠ -2 then
      match floatPct current_val.toNat max_val.toNat with
      | some pct => (some (pct : Int), none)
      | none => (none, some "OverflowError")
    else (none, some "Cannot calculate")
  | _, _ => (none, some "Error")

example : calculate_toner_percentage "-3" "100" = (none, some "OK") := by decide
example : calculate_toner_percentage "-2" "0" = (none, some "Unknown") := by decide
example : calculate_toner_percentage "-7" "100" = (none, some "Status: -7") := by decide
example : calculate_toner_percentage "abc" "100" = (none, some "Error") := by decide
example : calculate_toner_percentage "45" "100" = (some 45, none) := by decide
example : calculate_toner_percentage "150" "100" = (some 150, none) := by decide
example : calculate_toner_percentage "5" "0" = (none, some "Cannot calculate") := by decide
example : calculate_toner_percentage "29" "100" = (some 28, none) := by decide
example : calculate_toner_percentage "58" "100" = (some 57, none) := by decide
example : calculate_toner_percentage "57" "100" = (some 56, none) := by decide
example : floatPct 1 3 = some 33 := by decide
example : floatPct 13 7 = some 185 := by decide
example : floatPct (2 ^ 52 + 1) (2 ^ 52) = some 100 := by decide
example : floatPct 1 (2 ^ 1074) = some 0 := by decide
example : floatPct (2 ^ 1020) 1 = none := by decide

/-! ## Collector (src/proxy/src/monitoring/collector.py) -/

/-- One device as seen through `snmp_get`: for each queried OID, either
`none` (query failed / timed out / no such object) or the returned text.
Supplies are indexed by slot number, mirroring the five per-slot OIDs
queried by `get_supply_info`. -/
structure SnmpDevice where
  totalPages : Option String
  model : Option String
  deviceStatus : Option String
  supplyDescription : Nat → Option String
  supplyType : Nat → Option String
  supplyUnit : Nat → Option String
  supplyMaxCapacity : Nat → Option String
  supplyCurrentLevel : Nat → Option String

/-- The per-slot dictionary built by `get_supply_info`: a key is present
exactly when the corresponding query returned a truthy value. -/
structure SupplyInfo where
  description : Option String
  stype : Option String
  unit : Option String
  max_capacity : Option String
  current_level : Option String
deriving DecidableEq

/-- All five keys absent — `get_supply_info` then returns `None`
(`return supply if supply else None`). -/
def SupplyInfo.isEmpty (s : SupplyInfo) : Bool :=
  s.description.isNone && s.stype.isNone && s.unit.isNone &&
  s.max_capacity.isNone && s.current_level.isNone

/-- Models `get_supply_info(ip, index)`: query the five per-slot OIDs, keep the
truthy results, return `None` when the dictionary stays empty. -/
def get_supply_info (dev : SnmpDevice) (index : Nat) : Option SupplyInfo :=
  let s : SupplyInfo :=
    { description := keepTruthy (dev.supplyDescription index)
      stype := keepTruthy (dev.supplyType index)
      unit := keepTruthy (dev.supplyUnit index)
      max_capacity := keepTruthy (dev.supplyMaxCapacity index)
      current_level := keepTruthy (dev.supplyCurrentLevel index) }
  if s.isEmpty then none else some s

/-- The metrics dictionary assembled by `get_printer_metrics_async`,
with exactly the keys the source initialises: `total_pages`, `model`,
`device_status`, `toner_level_pct`, `toner_status`, `drum_level_pct`.
There is no drum-status key. -/
structure Metrics where
  total_pages : Option Int
  model : Option String
  device_status : Option Int
  toner_level_pct : Option Int
  toner_status : Option String
  drum_level_pct : Option Int
deriving DecidableEq

/-- The all-`None` dictionary the collector starts from. -/
def initMetrics : Metrics :=
  { total_pages := none, model := none, device_status := none
    toner_level_pct := none, toner_status := none, drum_level_pct := none }

/-- One iteration of the supply-slot loop in `get_printer_metrics_async`
(src/proxy/src/monitoring/collector.py, lines 64-91): skip empty slots
and slots missing current/max, classify by description keywords, decode,
and write the outcome into the metrics dictionary.  The toner branch
stores a percentage, else a truthy status; the drum branch stores only a
percentage. -/
def processSupplySlot (dev : SnmpDevice) (index : Nat) (m : Metrics) : Metrics :=
  match get_supply_info dev index with
  | none => m
  | some supply =>
    if otruthy supply.current_level && otruthy supply.max_capacity then
      let desc := py_lower (supply.description.getD "")
      let current := supply.current_level.getD ""
      let max_cap := supply.max_capacity.getD ""
      if strContains desc "toner" && strContains desc "black" then
        match calculate_toner_percentage current max_cap with
        | (some pct, _) => { m with toner_level_pct := some pct }
        | (none, some st) => if st.isEmpty then m else { m with toner_status := some st }
        | (none, none) => m
      else if strContains desc "drum" then
        match calculate_toner_percentage current max_cap with
        | (some pct, _) => { m with drum_level_pct := some pct }
        | (none, _) => m
      else m
    else m

/-- Models `get_printer_metrics_async(ip)`: gather page count, model and device
status (each tolerant of absence or parse failure), run the supply-slot
loop over indices 1..9 (`range(1, 10)`), and return the dictionary only
when some value is not `None`. -/
def get_printer_metrics_async (dev : SnmpDevice) : Option Metrics :=
  let m0 := initMetrics
  let m1 :=
    match dev.totalPages with
    | some s =>
      if s.isEmpty then m0
      else
        match pyParseInt s with
        | some n => { m0 with total_pages := some n }
        | none => m0
    | none => m0
  let m2 :=
    match dev.model with
    | some s => if s.isEmpty then m1 else { m1 with model := some s }
    | none => m1
  let m3 :=
    match dev.deviceStatus with
    | some s =>
      if s.isEmpty then m2
      else
        match pyParseInt s with
        | some n => { m2 with device_status := some n }
        | none => m2
    | none => m2
  let m4 := (List.range' 1 9).foldl (fun m i => processSupplySlot dev i m) m3
  if m4.total_pages.isSome || m4.model.isSome || m4.device_status.isSome ||
     m4.toner_level_pct.isSome || m4.toner_status.isSome || m4.drum_level_pct.isSome
  then some m4 else none

/-- A device that answers nothing for every query. -/
def silentDevice : SnmpDevice :=
  { totalPages := none, model := none, deviceStatus := none
    supplyDescription := fun _ => none, supplyType := fun _ => none
    supplyUnit := fun _ => none, supplyMaxCapacity := fun _ => none
    supplyCurrentLevel := fun _ => none }

/-- The §8 end-to-end scenario device at 10.0.0.5: total pages "4821",
black-toner slot 1 with 45/100, drum slot 3 with -3/100. -/
def scenarioDevice : SnmpDevice :=
  { silentDevice with
    totalPages := some "4821"
    supplyDescription := fun i =>
      if i = 1 then some "Black Toner Cartridge"
      else if i = 3 then some "Drum Unit" else none
    supplyMaxCapacity := fun i =>
      if i = 1 then some "100" else if i = 3 then some "100" else none
    supplyCurrentLevel := fun i =>
      if i = 1 then some "45" else if i = 3 then some "-3" else none }

/-- The scenario device with the drum slot removed entirely. -/
def scenarioDeviceNoDrum : SnmpDevice :=
  { silentDevice with
    totalPages := some "4821"
    supplyDescription := fun i => if i = 1 then some "Black Toner Cartridge" else none
    supplyMaxCapacity := fun i => if i = 1 then some "100" else none
    supplyCurrentLevel := fun i => if i = 1 then some "45" else none }

/-- A device with two black-toner slots: slot 1 at 45/100, slot 2 at
80/100. -/
def twoTonerDevice : SnmpDevice :=
  { silentDevice with
    supplyDescription := fun i =>
      if i = 1 then some "Black Toner Cartridge"
      else if i = 2 then some "Black Toner Cartridge 2" else none
    supplyMaxCapacity := fun i =>
      if i = 1 then some "100" else if i = 2 then some "100" else none
    supplyCurrentLevel := fun i =>
      if i = 1 then some "45" else if i = 2 then some "80" else none }

example :
    get_printer_metrics_async scenarioDevice =
      some { total_pages := some 4821, model := none, device_status := none
             toner_level_pct := some 45, toner_status := none
             drum_level_pct := none } := by decide

example :
    get_printer_metrics_async twoTonerDevice =
      some { initMetrics with toner_level_pct := some 80 } := by decide

/-- A device with two drum slots: slot 1 at 45/100, slot 2 at 80/100. -/
def twoDrumDevice : SnmpDevice :=
  { silentDevice with
    supplyDescription := fun i =>
      if i = 1 then some "Drum Unit" else if i = 2 then some "Drum Unit 2" else none
    supplyMaxCapacity := fun i =>
      if i = 1 then some "100" else if i = 2 then some "100" else none
    supplyCurrentLevel := fun i =>
      if i = 1 then some "45" else if i = 2 then some "80" else none }

example :
    get_printer_metrics_async twoDrumDevice =
      some { initMetrics with drum_level_pct := some 80 } := by decide

example : get_printer_metrics_async silentDevice = none := by decide

/-! ## Local store (src/proxy/src/storage/local.py) -/

/-- One row of the `printers` table (id, ip UNIQUE, name, location,
model); `first_seen` defaults server-side and is not touched by the
modelled operations. -/
structure PrinterRow where
  id : Nat
  ip : String
  name : String
  location : Option String
  model : Option String
deriving DecidableEq

/-- One row of the `metrics` table, exactly the columns of the INSERT in
`LocalStorage.save_metrics`: printer_id, timestamp, total_pages,
toner_level_pct, toner_status, drum_level_pct, device_status.  There is
no model column. -/
structure MetricsRow where
  printer_id : Nat
  timestamp : Nat
  total_pages : Option Int
  toner_level_pct : Option Int
  toner_status : Option String
  drum_level_pct : Option Int
  device_status : Option Int
deriving DecidableEq

/-- The SQLite database state: the two tables plus the AUTOINCREMENT
counter for `printers.id`. -/
structure LocalDB where
  printers : List PrinterRow
  metricsRows : List MetricsRow
  nextId : Nat
deriving DecidableEq

/-- The metrics dictionary as handed to a storage backend: the six
collector keys plus the `timestamp` key `monitor_printer` adds (absent
when the dictionary comes straight from the collector). -/
structure Sample where
  total_pages : Option Int
  model : Option String
  device_status : Option Int
  toner_level_pct : Option Int
  toner_status : Option String
  drum_level_pct : Option Int
  timestamp : Option Nat
deriving DecidableEq

/-- Models `LocalStorage.save_metrics(printer_id, metrics)`: look the address
up in `printers`; if absent return false with the database untouched,
otherwise insert one metrics row.  `now` is the `datetime.now()` read
inside the INSERT — the timestamp column of the row receives it, not
the `timestamp` entry of the sample. -/
def LocalStorage.save_metrics (db : LocalDB) (now : Nat) (printer_id : String)
    (metrics : Sample) : Bool × LocalDB :=
  match db.printers.find? (fun p => p.ip == printer_id) with
  | none => (false, db)
  | some p =>
    (true,
     { db with
       metricsRows := db.metricsRows ++
         [{ printer_id := p.id, timestamp := now
            total_pages := metrics.total_pages
            toner_level_pct := metrics.toner_level_pct
            toner_status := metrics.toner_status
            drum_level_pct := metrics.drum_level_pct
            device_status := metrics.device_status }] })

/-- Models `LocalStorage.get_or_create_printer(ip, name, location, model)`:
return the IP unchanged when a row with that ip exists, else insert a
fresh row and return the IP. -/
def LocalStorage.get_or_create_printer (db : LocalDB) (ip name : String)
    (location model : Option String) : Option String × LocalDB :=
  match db.printers.find? (fun p => p.ip == ip) with
  | some _ => (some ip, db)
  | none =>
    (some ip,
     { db with
       printers := db.printers ++ [{ id := db.nextId, ip := ip, name := name
                                     location := location, model := model }]
       nextId := db.nextId + 1 })

/-! ## Remote store (src/proxy/src/storage/cloud.py) -/

/-- Outcome of one HTTP attempt, abstracted to what
`CloudStorage.save_metrics` inspects: `none` models a
`requests.RequestException` (network failure or non-2xx via
`raise_for_status`), `some b` a delivered JSON body whose Python
truthiness is `b`. -/
def NetTrace : Type := Nat → Option Bool

/-- The retry loop of `CloudStorage._make_request`: try attempts
`start, start+1, ...` while `fuel` remains; return the first delivered
body, or `none` once every attempt has failed (the source returns
`None` after the last attempt; with `retry_attempts = 0` the loop body
never runs and the function falls through to `None` as well). -/
def makeRequestFrom (net : NetTrace) : Nat → Nat → Option Bool
  | _, 0 => none
  | start, fuel + 1 =>
    match net start with
    | some v => some v
    | none => makeRequestFrom net (start + 1) fuel

/-- Models `CloudStorage._make_request` for a POST: up to `retry_attempts`
attempts starting at attempt 0. -/
def CloudStorage.make_request (retry_attempts : Nat) (net : NetTrace) : Option Bool :=
  makeRequestFrom net 0 retry_attempts

/-- Models `CloudStorage.save_metrics(printer_id, metrics)`: send the payload
through the retry wrapper; a truthy response returns true and leaves the
buffer alone.  Otherwise (`if result:` false — retries exhausted or a
falsy body), when a buffer is configured the very same sample is written
to it by `LocalStorage.save_metrics` and the boolean of that call is
returned; with buffering disabled the call returns false. -/
def CloudStorage.save_metrics (retry_attempts : Nat) (net : NetTrace)
    (buffer : Option LocalDB) (now : Nat) (printer_id : String)
    (metrics : Sample) : Bool × Option LocalDB :=
  match CloudStorage.make_request retry_attempts net with
  | some true => (true, buffer)
  | _ =>
    match buffer with
    | some db =>
      let r := LocalStorage.save_metrics db now printer_id metrics
      (r.1, some r.2)
    | none => (false, none)

/-! ## monitor_printer (src/proxy/src/monitoring/collector.py) -/

/-- Models the statement `metrics[timestamp] = datetime.now()` in
`monitor_printer`: the collector stamps the sample with its
completion-time clock read. -/
def stampedSample (m : Metrics) (t : Nat) : Sample :=
  { total_pages := m.total_pages, model := m.model
    device_status := m.device_status
    toner_level_pct := m.toner_level_pct
    toner_status := m.toner_status
    drum_level_pct := m.drum_level_pct
    timestamp := some t }

/-- Models `monitor_printer(ip, storage)` against a local-store backend:
collect the metrics, stamp them with the collector clock `tCollect`,
and submit them to `LocalStorage.save_metrics`, whose own clock read is
`tWrite`.  A device yielding no metrics saves nothing and reports
false. -/
def monitor_printer (dev : SnmpDevice) (ip : String) (db : LocalDB)
    (tCollect tWrite : Nat) : Bool × LocalDB :=
  match get_printer_metrics_async dev with
  | some m => LocalStorage.save_metrics db tWrite ip (stampedSample m tCollect)
  | none => (false, db)

/-! ## Concrete fixtures -/

/-- A database holding the single registered printer 10.0.0.5. -/
def db105 : LocalDB :=
  { printers := [{ id := 1, ip := "10.0.0.5", name := "Office", location := none
                   model := none }]
    metricsRows := []
    nextId := 2 }

/-- A device reporting only a page count. -/
def pagesOnlyDevice : SnmpDevice :=
  { silentDevice with totalPages := some "7" }

/-- A sample with a few representative values. -/
def sample45 : Sample :=
  { total_pages := some 4821, model := some "LaserJet", device_status := some 2
    toner_level_pct := some 45, toner_status := none, drum_level_pct := none
    timestamp := some 5 }

example : (LocalStorage.save_metrics db105 9 "10.0.0.5" sample45).1 = true := by decide
example : LocalStorage.save_metrics db105 9 "10.9.9.9" sample45 = (false, db105) := by decide
example :
    (LocalStorage.save_metrics db105 9 "10.0.0.5" sample45).2.metricsRows =
      [{ printer_id := 1, timestamp := 9, total_pages := some 4821
         toner_level_pct := some 45, toner_status := none, drum_level_pct := none
         device_status := some 2 }] := by decide
example :
    CloudStorage.save_metrics 3 (fun _ => none) (some db105) 9 "10.0.0.5" sample45 =
      (true, some (LocalStorage.save_metrics db105 9 "10.0.0.5" sample45).2) := by decide
example :
    CloudStorage.save_metrics 3 (fun _ => none) none 9 "10.0.0.5" sample45 =
      (false, none) := by decide
example :
    LocalStorage.get_or_create_printer db105 "10.0.0.5" "Other" (some "x") (some "y") =
      (some "10.0.0.5", db105) := by decide

/-! ## Properties of the binary64 model -/

/-- With enough fuel, the fuel-driven logarithm agrees with `Nat.log2`. -/
theorem log2fuel_eq (fuel : Nat) : ∀ n, n ≤ fuel → log2fuel fuel n = Nat.log2 n := by
  induction fuel with
  | zero =>
    intro n h
    have hn : n = 0 := by omega
    subst hn
    rw [log2fuel, Nat.log2]
    norm_num
  | succ f ih =>
    intro n h
    rw [log2fuel]
    by_cases h2 : 2 ≤ n
    · rw [if_pos h2, ih (n / 2) (by omega)]
      conv_rhs => rw [Nat.log2]
      rw [if_pos h2]
    · rw [if_neg h2]
      conv_rhs => rw [Nat.log2]
      rw [if_neg h2]

/-- The executable logarithm is `Nat.log2`. -/
theorem natLog2_eq (n : Nat) : natLog2 n = Nat.log2 n :=
  log2fuel_eq n n (Nat.le_refl n)

/-- Nearest-even rounding never exceeds the floor by more than one. -/
theorem roundNE_le_succ (n d : Nat) : roundNE n d ≤ n / d + 1 := by
  unfold roundNE
  split_ifs <;> omega

/-- Nearest-even rounding of `n / d ≤ B` stays at most `B`: rounding up
past `B` would need a fractional part, impossible at the top. -/
theorem roundNE_le_of_le_mul (n d B : Nat) (hd : 0 < d) (hnd : n ≤ d * B) :
    roundNE n d ≤ B := by
  have hq : n / d ≤ B := by
    have h1 : n / d ≤ d * B / d := Nat.div_le_div_right hnd
    rwa [Nat.mul_div_cancel_left B hd] at h1
  rcases Nat.lt_or_ge (n / d) B with h | h
  · have h2 := roundNE_le_succ n d
    omega
  · have hqB : n / d = B := Nat.le_antisymm hq h
    have hmod := Nat.div_add_mod n d
    rw [hqB] at hmod
    have h0 : d * B + n % d ≤ d * B + 0 := by
      rw [Nat.add_zero, hmod]; exact hnd
    have hr : n % d = 0 := Nat.eq_zero_of_le_zero (Nat.le_of_add_le_add_left h0)
    unfold roundNE
    rw [hr, hqB]
    have hcond : 2 * 0 < d := by omega
    rw [if_pos hcond]

/-- The computed binade exponent is a lower bound: `2 ^ floorLog2 a b`
is at most `a / b`, in cross-multiplied form. -/
theorem ratGePow2_floorLog2 (a b : Nat) (ha : 0 < a) :
    ratGePow2 a b (floorLog2 a b) = true := by
  unfold floorLog2
  by_cases h : ratGePow2 a b ((natLog2 a : Int) - (natLog2 b : Int))
  · rw [if_pos h]; exact h
  · rw [if_neg h]
    unfold ratGePow2
    rw [decide_eq_true_iff]
    have h1 : 2 ^ Nat.log2 a ≤ a := Nat.log2_self_le (by omega)
    have h2 : b < 2 ^ (Nat.log2 b + 1) := Nat.lt_log2_self
    rw [natLog2_eq, natLog2_eq]
    rcases le_or_lt ((Nat.log2 b : Int) + 1) (Nat.log2 a : Int) with hcase | hcase
    · have hk : ((Nat.log2 a : Int) - Nat.log2 b - 1).toNat =
          Nat.log2 a - Nat.log2 b - 1 := by omega
      have hk2 : (-((Nat.log2 a : Int) - Nat.log2 b - 1)).toNat = 0 := by omega
      rw [hk, hk2, pow_zero, mul_one]
      have hlt : b * 2 ^ (Nat.log2 a - Nat.log2 b - 1) <
          2 ^ (Nat.log2 b + 1) * 2 ^ (Nat.log2 a - Nat.log2 b - 1) :=
        Nat.mul_lt_mul_of_lt_of_le h2 (Nat.le_refl _) (by positivity)
      have heq : 2 ^ (Nat.log2 b + 1) * 2 ^ (Nat.log2 a - Nat.log2 b - 1) =
          2 ^ Nat.log2 a := by
        rw [← pow_add]
        congr 1
        omega
      exact Nat.le_of_lt (Nat.lt_of_lt_of_le (heq ▸ hlt) h1)
    · have hk : ((Nat.log2 a : Int) - Nat.log2 b - 1).toNat = 0 := by omega
      have hk2 : (-((Nat.log2 a : Int) - Nat.log2 b - 1)).toNat =
          Nat.log2 b + 1 - Nat.log2 a := by omega
      rw [hk, hk2, pow_zero, mul_one]
      have heq : 2 ^ (Nat.log2 b + 1) =
          2 ^ Nat.log2 a * 2 ^ (Nat.log2 b + 1 - Nat.log2 a) := by
        rw [← pow_add]
        congr 1
        omega
      have h3 : 2 ^ Nat.log2 a * 2 ^ (Nat.log2 b + 1 - Nat.log2 a) ≤
          a * 2 ^ (Nat.log2 b + 1 - Nat.log2 a) :=
        Nat.mul_le_mul_right _ h1
      exact Nat.le_of_lt (Nat.lt_of_lt_of_le (heq ▸ h2) h3)

/-- A quotient bounded by `B ≤ 2 ^ 52` rounds on a nonpositive grid
exponent. -/
theorem binShift_nonpos (a b B : Nat) (ha : 0 < a) (hb : 0 < b)
    (hB : B ≤ 2 ^ 52) (hab : a ≤ b * B) : binShift a b ≤ 0 := by
  have he52 : floorLog2 a b ≤ 52 := by
    by_contra hgt
    push_neg at hgt
    have hL := ratGePow2_floorLog2 a b ha
    unfold ratGePow2 at hL
    rw [decide_eq_true_iff] at hL
    have hneg : (-(floorLog2 a b)).toNat = 0 := by omega
    rw [hneg, pow_zero, mul_one] at hL
    have h2 : 2 ^ (floorLog2 a b).toNat ≤ B :=
      Nat.le_of_mul_le_mul_left (Nat.le_trans hL hab) hb
    have h3 : (2 : Nat) ^ 53 ≤ 2 ^ (floorLog2 a b).toNat :=
      Nat.pow_le_pow_right (by norm_num) (by omega)
    have h4 := (h3.trans h2).trans hB
    norm_num at h4
  unfold binShift
  split_ifs <;> omega

/-- Rounding `a / b ≤ B` (with `B ≤ 2 ^ 52`) to binary64 keeps the
value at most `B`, stated on significand and exponent. -/
theorem roundPosDouble_le (a b B : Nat) (ha : 0 < a) (hb : 0 < b)
    (hB : B ≤ 2 ^ 52) (hab : a ≤ b * B) (s : Nat) (p : Int)
    (h : roundPosDouble a b = some (s, p)) :
    p ≤ 0 ∧ s ≤ B * 2 ^ (-p).toNat := by
  have hsh := binShift_nonpos a b B ha hb hB hab
  unfold roundPosDouble at h
  by_cases hov : roundAt a b (binShift a b) < 2 ^ ((1024 : Int) - binShift a b).toNat
  · rw [if_pos hov] at h
    obtain ⟨hs, hp⟩ := Prod.mk.inj (Option.some.inj h)
    subst hp
    refine ⟨hsh, ?_⟩
    rw [← hs]
    unfold roundAt
    apply roundNE_le_of_le_mul
    · positivity
    · have hz : (binShift a b).toNat = 0 := by omega
      rw [hz, pow_zero, mul_one]
      calc a * 2 ^ (-(binShift a b)).toNat
          ≤ (b * B) * 2 ^ (-(binShift a b)).toNat := Nat.mul_le_mul_right _ hab
        _ = b * (B * 2 ^ (-(binShift a b)).toNat) := by ring
  · rw [if_neg hov] at h
    exact absurd h (by simp)

/-- The float percentage of `c / m` with `c ≤ m` never exceeds 100:
each of the two roundings preserves the bound because 1 and 100 are
exactly representable, and truncation only shrinks. -/
theorem floatPct_le_100 (c m : Nat) (hm : 0 < m) (hcm : c ≤ m) (pct : Nat)
    (h : floatPct c m = some pct) : pct ≤ 100 := by
  by_cases hc : c = 0
  · subst hc
    have h0 : floatPct 0 m = some 0 := rfl
    rw [h0] at h
    have := Option.some.inj h
    omega
  · have hc' : 0 < c := Nat.pos_of_ne_zero hc
    unfold floatPct at h
    cases hdiv : pyFloatDiv c m with
    | none => rw [hdiv] at h; exact absurd h (by simp)
    | some sp1 =>
      obtain ⟨s1, p1⟩ := sp1
      rw [hdiv] at h
      have hrp1 : roundPosDouble c m = some (s1, p1) := by
        unfold pyFloatDiv at hdiv
        rw [if_neg hc] at hdiv
        exact hdiv
      obtain ⟨hp1, hs1⟩ := roundPosDouble_le c m 1 hc' hm (by norm_num)
        (by omega) s1 p1 hrp1
      have h2 : (match pyFloatDiv (dyadicFrac (s1 * 100) p1).1
          (dyadicFrac (s1 * 100) p1).2 with
        | none => none
        | some (s2, p2) => some (dyadicFloor s2 p2)) = some pct := h
      cases hdiv2 : pyFloatDiv (dyadicFrac (s1 * 100) p1).1 (dyadicFrac (s1 * 100) p1).2 with
      | none => rw [hdiv2] at h2; exact absurd h2 (by simp)
      | some sp2 =>
        obtain ⟨s2, p2⟩ := sp2
        rw [hdiv2] at h2
        have hpct : dyadicFloor s2 p2 = pct := Option.some.inj h2
        by_cases hz : s1 = 0
        · subst hz
          have he : pyFloatDiv (dyadicFrac (0 * 100) p1).1 (dyadicFrac (0 * 100) p1).2 =
              some (0, 0) := by
            unfold dyadicFrac pyFloatDiv
            simp
          rw [he] at hdiv2
          obtain ⟨h1, h2⟩ := Prod.mk.inj (Option.some.inj hdiv2)
          rw [← hpct, ← h1, ← h2]
          unfold dyadicFloor
          simp
        · have hs1pos : 0 < s1 := Nat.pos_of_ne_zero hz
          have ha2 : 0 < (dyadicFrac (s1 * 100) p1).1 := by
            unfold dyadicFrac
            positivity
          have hb2 : 0 < (dyadicFrac (s1 * 100) p1).2 := by
            unfold dyadicFrac
            positivity
          have hab2 : (dyadicFrac (s1 * 100) p1).1 ≤ (dyadicFrac (s1 * 100) p1).2 * 100 := by
            unfold dyadicFrac
            have hz1 : p1.toNat = 0 := by omega
            rw [hz1, pow_zero, mul_one]
            have hs1q : s1 ≤ 2 ^ (-p1).toNat := by
              rw [Nat.one_mul] at hs1
              exact hs1
            exact Nat.mul_le_mul_right 100 hs1q
          have hrp2 : roundPosDouble (dyadicFrac (s1 * 100) p1).1
              (dyadicFrac (s1 * 100) p1).2 = some (s2, p2) := by
            unfold pyFloatDiv at hdiv2
            rw [if_neg (Nat.pos_iff_ne_zero.mp ha2)] at hdiv2
            exact hdiv2
          obtain ⟨hp2, hs2⟩ := roundPosDouble_le _ _ 100 ha2 hb2 (by norm_num)
            hab2 s2 p2 hrp2
          rw [← hpct]
          unfold dyadicFloor
          have hz2 : p2.toNat = 0 := by omega
          rw [hz2, pow_zero, mul_one]
          calc s2 / 2 ^ (-p2).toNat ≤ (100 * 2 ^ (-p2).toNat) / 2 ^ (-p2).toNat :=
              Nat.div_le_div_right hs2
            _ = 100 := Nat.mul_div_cancel 100 (by positivity)

/-! ## Claims about the decoder -/

/-- C1: for every pair of raw input strings, the supply decoder maps
sentinels as specified — parse failure on either input yields
`(none, "Error")`; parsed current `-3` yields `(none, "OK")`; parsed
current `-2` yields `(none, "Unknown")`; every other negative parsed
current yields `(none, "Status: {current}")` with the numeric code
preserved in the string. -/
theorem decoder_sentinel_mapping (c m : String) :
    ((pyParseInt c = none ∨ pyParseInt m = none) →
      calculate_toner_percentage c m = (none, some "Error")) ∧
    (∀ mv : Int, pyParseInt c = some (-3) → pyParseInt m = some mv →
      calculate_toner_percentage c m = (none, some "OK")) ∧
    (∀ mv : Int, pyParseInt c = some (-2) → pyParseInt m = some mv →
      calculate_toner_percentage c m = (none, some "Unknown")) ∧
    (∀ cv mv : Int, pyParseInt c = some cv → pyParseInt m = some mv →
      cv < 0 → cv ≠ -3 → cv ≠ -2 →
      calculate_toner_percentage c m = (none, some ("Status: " ++ toString cv))) := by
  refine ⟨?_, ?_, ?_, ?_⟩
  · intro h
    unfold calculate_toner_percentage
    rcases h with h | h
    · rw [h]
    · rw [h]
      cases pyParseInt c <;> rfl
  · intro mv h1 h2
    unfold calculate_toner_percentage
    rw [h1, h2]
    simp
  · intro mv h0 h2
    unfold calculate_toner_percentage
    rw [h0, h2]
    norm_num
  · intro cv mv h1 h2 h3 h4 h5
    unfold calculate_toner_percentage
    rw [h1, h2]
    simp [h3, h4, h5]

/-- Witness for C1: the four sentinel branches evaluated at concrete
inputs through `decoder_sentinel_mapping`. -/
theorem decoder_sentinel_mapping_witness :
    calculate_toner_percentage "abc" "100" = (none, some "Error") ∧
    calculate_toner_percentage "-3" "100" = (none, some "OK") ∧
    calculate_toner_percentage "-2" "100" = (none, some "Unknown") ∧
    calculate_toner_percentage "-7" "100" = (none, some "Status: -7") := by
  refine ⟨(decoder_sentinel_mapping "abc" "100").1 (Or.inl (by decide)),
          (decoder_sentinel_mapping "-3" "100").2.1 100 (by decide) (by decide),
          (decoder_sentinel_mapping "-2" "100").2.2.1 100 (by decide) (by decide), ?_⟩
  have h := (decoder_sentinel_mapping "-7" "100").2.2.2 (-7) 100
      (by decide) (by decide) (by decide) (by decide) (by decide)
  rw [h]
  decide

/-- C2 counterexample: the claim that every percentage the decoder
returns lies in [0,100] — with out-of-range raw inputs mapped to a
qualitative status instead — is false: current 150 with max 100 yields
the out-of-range percentage 150 and no status. -/
theorem decoder_percentage_out_of_range :
    calculate_toner_percentage "150" "100" = (some 150, none) ∧ (100 : Int) < 150 := by
  exact ⟨by decide, by decide⟩

/-- C2 amended: for every parsed current ≥ 0 and max > 0, the decoder
computes the percentage by IEEE-754 binary64 evaluation of
`int((current / max) * 100)` — which can fall below the exact
`⌊current·100 / max⌋`, returning 28 at (29, 100) and 57 at (58, 100) —
and returns it with no status whenever the computation stays in float
range; the percentage lies in [0,100] whenever current ≤ max, but
current > max produces an out-of-range percentage rather than a
qualitative status (see the counterexample). -/
theorem decoder_percentage_formula :
    (∀ (c m : String) (cv mv : Int), pyParseInt c = some cv →
      pyParseInt m = some mv → 0 ≤ cv → 0 < mv →
      ∀ pct : Nat, floatPct cv.toNat mv.toNat = some pct →
        calculate_toner_percentage c m = (some (pct : Int), none) ∧
        (cv ≤ mv → pct ≤ 100)) ∧
    calculate_toner_percentage "29" "100" = (some 28, none) ∧
    calculate_toner_percentage "58" "100" = (some 57, none) := by
  refine ⟨?_, by decide, by decide⟩
  intro c m cv mv hc hm h0 h1 pct hp
  constructor
  · unfold calculate_toner_percentage
    rw [hc, hm]
    have h3 : cv ≠ -3 := by omega
    have h2 : cv ≠ -2 := by omega
    have hlt : ¬ cv < 0 := by omega
    have hm2 : mv > 0 ∧ mv ≠ -2 := ⟨h1, by omega⟩
    simp [h3, h2, hlt, hm2, hp]
  · intro hle
    exact floatPct_le_100 cv.toNat mv.toNat (by omega) (by omega) pct hp

/-- Witness for C2 amended: current 45, max 100 gives exactly 45
percent (the float computation is benign there) and no status, with the
bound discharged through `decoder_percentage_formula`. -/
theorem decoder_percentage_formula_witness :
    calculate_toner_percentage "45" "100" = (some 45, none) ∧ (45 : Nat) ≤ 100 := by
  have h := decoder_percentage_formula.1 "45" "100" 45 100
      (by decide) (by decide) (by decide) (by decide) 45 (by decide)
  exact ⟨h.1, h.2 (by decide)⟩

/-- C3: on every return path of the supply decoder, for all input
strings, exactly one of the two components (percentage, status) is
populated — never both, never neither. -/
theorem decoder_exactly_one_outcome (c m : String) :
    ((calculate_toner_percentage c m).1.isSome = true ∧
       (calculate_toner_percentage c m).2 = none) ∨
    ((calculate_toner_percentage c m).1 = none ∧
       (calculate_toner_percentage c m).2.isSome = true) := by
  unfold calculate_toner_percentage
  cases pyParseInt c with
  | none => cases pyParseInt m <;> simp
  | some cv =>
    cases pyParseInt m with
    | none => simp
    | some mv =>
      by_cases h1 : cv = -3
      · simp [h1]
      · by_cases h2 : cv = -2
        · simp [h1, h2]
        · by_cases h3 : cv < 0
          · simp [h1, h2, h3]
          · by_cases h4 : mv > 0 ∧ mv ≠ -2
            · cases hf : floatPct cv.toNat mv.toNat with
              | none => simp [h1, h2, h3, h4, hf]
              | some pct => simp [h1, h2, h3, h4, hf]
            · simp [h1, h2, h3, h4]

/-! ## Claims about the collector -/

/-- C4 counterexample: the claim that a drum slot decoding to a
qualitative status lands in a drum-status field of the sample is false.
In the §8 scenario (pages "4821", black-toner slot 1 at 45/100, drum
slot 3 at -3/100) the decoder does produce `(none, "OK")` for the drum
slot, yet the emitted sample records it nowhere: the metrics dictionary
built by the collector has no drum-status key at all (see `Metrics`),
`drum_level_pct` stays empty, and the sample is identical to the one
produced when the device has no drum slot whatsoever. -/
theorem collector_drum_status_dropped_cex :
    calculate_toner_percentage "-3" "100" = (none, some "OK") ∧
    get_printer_metrics_async scenarioDevice =
      some { total_pages := some 4821, model := none, device_status := none
             toner_level_pct := some 45, toner_status := none
             drum_level_pct := none } ∧
    get_printer_metrics_async scenarioDevice =
      get_printer_metrics_async scenarioDeviceNoDrum :=
  ⟨by decide, by decide, by decide⟩

/-- C4 amended: when a supply slot classified as the drum channel
decodes to a qualitative status (no percentage), the collector discards
the status entirely — processing the slot leaves the metrics dictionary
unchanged, and the dictionary has no drum-status field to carry it; in
the §8 scenario the emitted sample therefore has pages 4821, toner 45,
no toner status and an empty `drum_level_pct`. -/
theorem collector_drum_status_dropped :
    (∀ dev i m sup, get_supply_info dev i = some sup →
      otruthy sup.current_level = true → otruthy sup.max_capacity = true →
      (strContains (py_lower (sup.description.getD "")) "toner" &&
       strContains (py_lower (sup.description.getD "")) "black") = false →
      strContains (py_lower (sup.description.getD "")) "drum" = true →
      (calculate_toner_percentage (sup.current_level.getD "")
        (sup.max_capacity.getD "")).1 = none →
      processSupplySlot dev i m = m) ∧
    get_printer_metrics_async scenarioDevice =
      some { total_pages := some 4821, model := none, device_status := none
             toner_level_pct := some 45, toner_status := none
             drum_level_pct := none } := by
  constructor
  · intro dev i m sup hs hc hm ht hd hp
    unfold processSupplySlot
    rw [hs]
    cases hq : calculate_toner_percentage (sup.current_level.getD "")
        (sup.max_capacity.getD "") with
    | mk p st =>
      rw [hq] at hp
      simp only at hp
      subst hp
      simp [hc, hm, ht, hd, hq]
  · decide

/-- Witness for C4 amended: the drum slot of the scenario device (index
3, reporting -3/100) leaves the metrics dictionary untouched. -/
theorem collector_drum_status_dropped_witness :
    processSupplySlot scenarioDevice 3 initMetrics = initMetrics :=
  collector_drum_status_dropped.1 scenarioDevice 3 initMetrics
    { description := some "Drum Unit", stype := none, unit := none
      max_capacity := some "100", current_level := some "-3" }
    (by decide) (by decide) (by decide) (by decide) (by decide) (by decide)

/-- C5 counterexample: the claim that only the first matching slot per
channel determines the fields of the sample is false.  On a device with
two black-toner slots — slot 1 decoding to 45 percent, slot 2 to 80
percent — the emitted sample carries 80, the value of the later slot,
not 45. -/
theorem collector_last_slot_wins_cex :
    calculate_toner_percentage "45" "100" = (some 45, none) ∧
    calculate_toner_percentage "80" "100" = (some 80, none) ∧
    get_printer_metrics_async twoTonerDevice =
      some { total_pages := none, model := none, device_status := none
             toner_level_pct := some 80, toner_status := none
             drum_level_pct := none } ∧
    (80 : Int) ≠ 45 :=
  ⟨by decide, by decide, by decide, by decide⟩

/-- C5 amended: every matching slot is processed and overwrites the
fields written by earlier slots of the same channel, on both channels —
a toner-matching slot decoding to a percentage sets `toner_level_pct`
to that value no matter what earlier slots stored, and a drum-matching
slot decoding to a percentage likewise sets `drum_level_pct`, so the
last matching slot wins; the two-toner device yields the toner
percentage of slot 2, and the two-drum device the drum percentage of
slot 2. -/
theorem collector_later_slot_overwrites :
    (∀ dev i m sup pct st, get_supply_info dev i = some sup →
      otruthy sup.current_level = true → otruthy sup.max_capacity = true →
      (strContains (py_lower (sup.description.getD "")) "toner" &&
       strContains (py_lower (sup.description.getD "")) "black") = true →
      calculate_toner_percentage (sup.current_level.getD "")
        (sup.max_capacity.getD "") = (some pct, st) →
      (processSupplySlot dev i m).toner_level_pct = some pct) ∧
    (∀ dev i m sup pct st, get_supply_info dev i = some sup →
      otruthy sup.current_level = true → otruthy sup.max_capacity = true →
      (strContains (py_lower (sup.description.getD "")) "toner" &&
       strContains (py_lower (sup.description.getD "")) "black") = false →
      strContains (py_lower (sup.description.getD "")) "drum" = true →
      calculate_toner_percentage (sup.current_level.getD "")
        (sup.max_capacity.getD "") = (some pct, st) →
      (processSupplySlot dev i m).drum_level_pct = some pct) ∧
    get_printer_metrics_async twoTonerDevice =
      some { total_pages := none, model := none, device_status := none
             toner_level_pct := some 80, toner_status := none
             drum_level_pct := none } ∧
    get_printer_metrics_async twoDrumDevice =
      some { total_pages := none, model := none, device_status := none
             toner_level_pct := none, toner_status := none
             drum_level_pct := some 80 } := by
  refine ⟨?_, ?_, by decide, by decide⟩
  · intro dev i m sup pct st hs hc hm ht hq
    unfold processSupplySlot
    rw [hs]
    simp [hc, hm, ht, hq]
  · intro dev i m sup pct st hs hc hm ht hd hq
    unfold processSupplySlot
    rw [hs]
    simp [hc, hm, ht, hd, hq]

/-- Witness for C5 amended: slot 2 of the two-toner device overwrites a
previously stored 45 percent toner level with its own 80 percent, and
slot 2 of the two-drum device does the same on the drum level. -/
theorem collector_later_slot_overwrites_witness :
    (processSupplySlot twoTonerDevice 2
      { total_pages := none, model := none, device_status := none
        toner_level_pct := some 45, toner_status := none
        drum_level_pct := none }).toner_level_pct = some 80 ∧
    (processSupplySlot twoDrumDevice 2
      { total_pages := none, model := none, device_status := none
        toner_level_pct := none, toner_status := none
        drum_level_pct := some 45 }).drum_level_pct = some 80 :=
  ⟨collector_later_slot_overwrites.1 twoTonerDevice 2
    { total_pages := none, model := none, device_status := none
      toner_level_pct := some 45, toner_status := none, drum_level_pct := none }
    { description := some "Black Toner Cartridge 2", stype := none, unit := none
      max_capacity := some "100", current_level := some "80" }
    80 none (by decide) (by decide) (by decide) (by decide) (by decide),
   collector_later_slot_overwrites.2.1 twoDrumDevice 2
    { total_pages := none, model := none, device_status := none
      toner_level_pct := none, toner_status := none, drum_level_pct := some 45 }
    { description := some "Drum Unit 2", stype := none, unit := none
      max_capacity := some "100", current_level := some "80" }
    80 none (by decide) (by decide) (by decide) (by decide) (by decide) (by decide)⟩

/-! ## Claims about the storage pipeline -/

/-- Helper: when every attempted call in the window fails, the retry
loop reports no result. -/
theorem makeRequestFrom_eq_none (net : NetTrace) :
    ∀ fuel start, (∀ i, start ≤ i → i < start + fuel → net i = none) →
      makeRequestFrom net start fuel = none := by
  intro fuel
  induction fuel with
  | zero => intro start _; rfl
  | succ k ih =>
    intro start h
    unfold makeRequestFrom
    have h0 : net start = none := h start (Nat.le_refl _) (by omega)
    rw [h0]
    exact ih (start + 1) (fun i h1 h2 => h i (by omega) (by omega))

/-- C6: when the remote write fails on all N configured attempts, the
remote store with buffering enabled performs exactly one local-buffer
write of the very same sample — the resulting buffer state is the state
after that single `LocalStorage.save_metrics` call — and returns that
call's boolean; with buffering disabled it returns false and no buffer
write occurs. -/
theorem remote_store_fallback (n : Nat) (net : NetTrace) (now : Nat)
    (ip : String) (m : Sample) (hfail : ∀ i, i < n → net i = none) :
    (∀ db : LocalDB,
      CloudStorage.save_metrics n net (some db) now ip m =
        ((LocalStorage.save_metrics db now ip m).1,
         some (LocalStorage.save_metrics db now ip m).2)) ∧
    CloudStorage.save_metrics n net none now ip m = (false, none) := by
  have hreq : CloudStorage.make_request n net = none :=
    makeRequestFrom_eq_none net n 0 (fun i _ h2 => hfail i (by omega))
  constructor
  · intro db
    unfold CloudStorage.save_metrics
    rw [hreq]
  · unfold CloudStorage.save_metrics
    rw [hreq]

/-- Witness for C6: three simulated failures against the registered
printer; the buffered call succeeds (returns true), the bufferless call
returns false, applied through `remote_store_fallback`. -/
theorem remote_store_fallback_witness :
    CloudStorage.save_metrics 3 (fun _ => none) (some db105) 9 "10.0.0.5" sample45 =
      ((LocalStorage.save_metrics db105 9 "10.0.0.5" sample45).1,
       some (LocalStorage.save_metrics db105 9 "10.0.0.5" sample45).2) ∧
    (LocalStorage.save_metrics db105 9 "10.0.0.5" sample45).1 = true ∧
    CloudStorage.save_metrics 3 (fun _ => none) none 9 "10.0.0.5" sample45 =
      (false, none) := by
  have h := remote_store_fallback 3 (fun _ => none) 9 "10.0.0.5" sample45
      (fun i _ => rfl)
  exact ⟨h.1 db105, by decide, h.2⟩

/-- C7: saving a sample against an address with no registered device
returns false and leaves the store state exactly as it was — no metrics
row is inserted and no device row is created. -/
theorem local_store_unknown_device (db : LocalDB) (now : Nat) (ip : String)
    (m : Sample) (h : ∀ p ∈ db.printers, p.ip ≠ ip) :
    LocalStorage.save_metrics db now ip m = (false, db) := by
  unfold LocalStorage.save_metrics
  have hf : db.printers.find? (fun p => p.ip == ip) = none := by
    rw [List.find?_eq_none]
    intro p hp
    simpa using h p hp
  rw [hf]

/-- Witness for C7: a save against the unregistered address 10.9.9.9
fails and changes nothing, through `local_store_unknown_device`. -/
theorem local_store_unknown_device_witness :
    LocalStorage.save_metrics db105 9 "10.9.9.9" sample45 = (false, db105) :=
  local_store_unknown_device db105 9 "10.9.9.9" sample45 (by decide)

/-- C8: registration is idempotent — re-registering an address that a
previous registration made present, even with a different name,
location or model, returns the existing address and leaves the store
state (device rows included) completely unchanged. -/
theorem local_store_register_idempotent (db : LocalDB) (ip n1 n2 : String)
    (l1 l2 m1 m2 : Option String) :
    LocalStorage.get_or_create_printer
        (LocalStorage.get_or_create_printer db ip n1 l1 m1).2 ip n2 l2 m2 =
      (some ip, (LocalStorage.get_or_create_printer db ip n1 l1 m1).2) := by
  cases hf : db.printers.find? (fun p => p.ip == ip) with
  | some p =>
    have h1 : LocalStorage.get_or_create_printer db ip n1 l1 m1 = (some ip, db) := by
      unfold LocalStorage.get_or_create_printer
      rw [hf]
    rw [h1]
    unfold LocalStorage.get_or_create_printer
    rw [hf]
  | none =>
    have h1 : LocalStorage.get_or_create_printer db ip n1 l1 m1 =
        (some ip,
         { db with
           printers := db.printers ++ [⟨db.nextId, ip, n1, l1, m1⟩]
           nextId := db.nextId + 1 }) := by
      unfold LocalStorage.get_or_create_printer
      rw [hf]
    rw [h1]
    unfold LocalStorage.get_or_create_printer
    have h2 : (db.printers ++ [(⟨db.nextId, ip, n1, l1, m1⟩ : PrinterRow)]).find?
        (fun p => p.ip == ip) = some ⟨db.nextId, ip, n1, l1, m1⟩ := by
      rw [List.find?_append, hf]
      simp [List.find?]
    simp only []
    rw [h2]

/-- C9 counterexample: the claim that the persisted timestamp equals
the completion-time stamp the collector placed in the sample is false.
The collector stamps the sample at clock 5, the local store writes at
clock 9, and the persisted row carries 9, not 5. -/
theorem persisted_timestamp_is_write_time_cex :
    get_printer_metrics_async pagesOnlyDevice =
      some { total_pages := some 7, model := none, device_status := none
             toner_level_pct := none, toner_status := none
             drum_level_pct := none } ∧
    (stampedSample
      { total_pages := some 7, model := none, device_status := none
        toner_level_pct := none, toner_status := none
        drum_level_pct := none } 5).timestamp = some 5 ∧
    (monitor_printer pagesOnlyDevice "10.0.0.5" db105 5 9).2.metricsRows.map
        (fun r => r.timestamp) = [9] ∧
    (9 : Nat) ≠ 5 :=
  ⟨by decide, by decide, by decide, by decide⟩

/-- C9 amended: the collector does stamp the sample with its
completion-time clock, and `monitor_printer` submits that stamped
sample; but `LocalStorage.save_metrics` ignores the timestamp entry of
the sample and persists its own write-time clock `now` in the inserted
row — the persisted timestamp is the time of the storage write, not the
collector stamp. -/
theorem persisted_timestamp_is_write_time :
    (∀ (m : Metrics) (t : Nat), (stampedSample m t).timestamp = some t) ∧
    (∀ dev ip db tC tW m, get_printer_metrics_async dev = some m →
      monitor_printer dev ip db tC tW =
        LocalStorage.save_metrics db tW ip (stampedSample m tC)) ∧
    (∀ db now ip (s : Sample) p,
      db.printers.find? (fun q => q.ip == ip) = some p →
      (LocalStorage.save_metrics db now ip s).2.metricsRows =
        db.metricsRows ++
          [{ printer_id := p.id, timestamp := now
             total_pages := s.total_pages
             toner_level_pct := s.toner_level_pct
             toner_status := s.toner_status
             drum_level_pct := s.drum_level_pct
             device_status := s.device_status }]) := by
  refine ⟨fun m t => rfl, ?_, ?_⟩
  · intro dev ip db tC tW m h
    unfold monitor_printer
    rw [h]
  · intro db now ip s p h
    unfold LocalStorage.save_metrics
    rw [h]

/-- Witness for C9 amended: at collector clock 5 and write clock 9 the
submitted sample carries stamp 5 while the inserted row carries 9,
through `persisted_timestamp_is_write_time`. -/
theorem persisted_timestamp_is_write_time_witness :
    (stampedSample
      { total_pages := some 7, model := none, device_status := none
        toner_level_pct := none, toner_status := none
        drum_level_pct := none } 5).timestamp = some 5 ∧
    monitor_printer pagesOnlyDevice "10.0.0.5" db105 5 9 =
      LocalStorage.save_metrics db105 9 "10.0.0.5"
        (stampedSample
          { total_pages := some 7, model := none, device_status := none
            toner_level_pct := none, toner_status := none
            drum_level_pct := none } 5) ∧
    (LocalStorage.save_metrics db105 9 "10.0.0.5" sample45).2.metricsRows =
      db105.metricsRows ++
        [{ printer_id := 1, timestamp := 9
           total_pages := sample45.total_pages
           toner_level_pct := sample45.toner_level_pct
           toner_status := sample45.toner_status
           drum_level_pct := sample45.drum_level_pct
           device_status := sample45.device_status }] := by
  refine ⟨persisted_timestamp_is_write_time.1 _ 5,
          persisted_timestamp_is_write_time.2.1 pagesOnlyDevice "10.0.0.5" db105
            5 9 _ (by decide), ?_⟩
  have h := persisted_timestamp_is_write_time.2.2 db105 9 "10.0.0.5" sample45
      ⟨1, "10.0.0.5", "Office", none, none⟩ (by decide)
  simpa using h

/-- C10: the local store never persists the model entry of a sample —
overwriting the model field of a sample changes neither the boolean
result nor the resulting store state, so two samples differing only in
their model value produce identical stored rows. -/
theorem local_store_ignores_model (db : LocalDB) (now : Nat) (ip : String)
    (m : Sample) (mdl : Option String) :
    LocalStorage.save_metrics db now ip { m with model := mdl } =
      LocalStorage.save_metrics db now ip m := by
  unfold LocalStorage.save_metrics
  cases db.printers.find? (fun p => p.ip == ip) <;> rfl
